import Mathlib

set_option maxRecDepth 100000

/-!
Verification of the NYC 311 December 2025 dashboard
(src/dashboard_311_dec2025.py).

The script embeds all of its data as literal pandas DataFrames and derives a
few columns from them (resolution rates, open counts, channel percentage
shares, calendar columns).  We embed each DataFrame as its column lists
(integers as ℤ, float columns as ℚ), the derived columns by the same
formulas the script uses, and the two figure-building helpers
(tufte_layout and create_sparkline) as functions on record types that model
the plotly layout fields they set.
-/

/-- Rounding of a rational to the nearest integer with ties going to the even
integer.  This is the rounding used by numpy (and by Python format strings)
and hence by the pandas Series.round method the script calls.  It is
computed on the normalized numerator and denominator: with f and r the
Euclidean quotient and remainder of num by den, the fractional part r/den
is compared against one half by comparing 2r against den. -/
def roundHalfEven (q : ℚ) : ℤ :=
  let d : ℤ := (q.den : ℤ)
  let f : ℤ := Int.ediv q.num d
  let r : ℤ := Int.emod q.num d
  if 2 * r < d then f
  else if d < 2 * r then f + 1
  else if f % 2 = 0 then f else f + 1

/-- Rounding to one decimal place, as in pandas Series.round applied with
argument 1: scale by ten, round half to even, scale back.  The scaling is
done on the numerator, which equals multiplication and division by ten
(theorem roundTo1_eq below). -/
def roundTo1 (q : ℚ) : ℚ :=
  Rat.divInt (roundHalfEven (Rat.divInt (q.num * 10) (q.den : ℤ))) 10

/-- The exact rational value of the expression closed / count * 100 rounded
to one decimal, written over Rat.divInt so that it evaluates by kernel
reduction; theorem rate_entry_eq below identifies it with the formula as
the script writes it. -/
def rateround (cl ct : ℤ) : ℚ := roundTo1 (Rat.divInt (cl * 100) ct)

-- ===========================================================================
-- Embedded data (lines 54-110 of the script) as column lists
-- ===========================================================================

/-- Column daily_data.date, modelled as the day of the month: the script
builds pd.date_range from 2025-12-01 to 2025-12-31, 31 consecutive days. -/
def daily_date : List ℕ := List.range' 1 31

/-- Column daily_data.count (line 56): requests received on each day. -/
def daily_count : List ℤ :=
  [12304, 12226, 12507, 13116, 13129, 11185, 10629, 12547, 14078, 12181,
   11675, 12034, 10474, 11274, 16388, 13946, 10499, 9555, 10170, 8484,
   8013, 10007, 8354, 7780, 6216, 8510, 7838, 8698, 9452, 10072, 8761]

/-- Models pandas dt.day_name for a date in December 2025: December 1, 2025
is a Monday, so day d has weekday index (d-1) mod 7 with Monday = 0. -/
def dayNameDec2025 (d : ℕ) : String :=
  match (d - 1) % 7 with
  | 0 => "Monday"
  | 1 => "Tuesday"
  | 2 => "Wednesday"
  | 3 => "Thursday"
  | 4 => "Friday"
  | 5 => "Saturday"
  | _ => "Sunday"

/-- Models pandas dt.isocalendar().week for a date in December 2025: the
month starts on a Monday, so days 1-7 are ISO week 49, 8-14 week 50,
15-21 week 51, 22-28 week 52, and 29-31 fall in ISO week 1 of 2026. -/
def isoWeekDec2025 (d : ℕ) : ℕ :=
  if d ≤ 7 then 49
  else if d ≤ 14 then 50
  else if d ≤ 21 then 51
  else if d ≤ 28 then 52
  else 1

/-- Column complaint_data.complaint_type (lines 65-69). -/
def complaint_type : List String :=
  ["Heat/Hot Water", "Noise - Residential", "Illegal Parking",
   "Blocked Driveway", "Unsanitary Condition", "Snow or Ice",
   "Plumbing", "Paint/Plaster", "Street Condition", "Noise - Street",
   "Door/Window", "Abandoned Vehicle", "Water System", "Traffic Signal",
   "Noise - Commercial"]

/-- Column complaint_data.count (lines 70-71). -/
def complaint_count : List ℤ :=
  [63902, 57386, 44161, 16409, 9692, 8700, 6841, 5183, 4830, 4787,
   4707, 4576, 4202, 4152, 3964]

/-- Column complaint_data.closed (lines 72-73). -/
def complaint_closed : List ℤ :=
  [63843, 57386, 44161, 16409, 5664, 8693, 4636, 3704, 4568, 4787,
   2887, 4576, 3873, 4148, 3964]

/-- Derived column complaint_data.resolution_rate (line 75):
(closed / count * 100).round(1). -/
def complaint_resolution_rate : List ℚ :=
  List.zipWith rateround complaint_closed complaint_count

/-- Derived column complaint_data.open (line 76): count - closed.  The
Python column is named open, a keyword in Lean, hence the suffix. -/
def complaint_open_col : List ℤ :=
  List.zipWith (fun ct cl => ct - cl) complaint_count complaint_closed

/-- Column agency_data.agency (line 80). -/
def agency_agency : List String :=
  ["NYPD", "HPD", "DSNY", "DOT", "DEP", "DOB", "DPR", "DOHMH", "TLC", "DHS"]

/-- Column agency_data.name (lines 81-82). -/
def agency_name : List String :=
  ["Police", "Housing", "Sanitation", "Transportation", "Environmental",
   "Buildings", "Parks", "Health", "Taxi/Limo", "Homeless Services"]

/-- Column agency_data.count (line 83). -/
def agency_count : List ℤ :=
  [142720, 105826, 27485, 16414, 12611, 7870, 5206, 5156, 3087, 2290]

/-- Column agency_data.closed (line 84). -/
def agency_closed : List ℤ :=
  [142720, 90340, 26633, 15014, 11939, 7870, 3440, 2648, 1007, 2263]

/-- Column agency_data.median_hours (line 85). -/
def agency_median_hours : List ℚ :=
  [0.97, 54.90, 47.02, 45.21, 25.57, 27.22, 44.28, 12.70, 35.96, 20.77]

/-- Derived column agency_data.resolution_rate (line 87). -/
def agency_resolution_rate : List ℚ :=
  List.zipWith rateround agency_closed agency_count

/-- Column borough_data.borough (line 91). -/
def borough_borough : List String :=
  ["Bronx", "Brooklyn", "Queens", "Manhattan", "Staten Island"]

/-- Column borough_data.count (line 92). -/
def borough_count : List ℤ := [96322, 93503, 69534, 61500, 11009]

/-- Column borough_data.closed (line 93). -/
def borough_closed : List ℤ := [90309, 86062, 64649, 53473, 10314]

/-- Column borough_data.median_hours (line 94). -/
def borough_median_hours : List ℚ := [22.38, 2.90, 3.28, 3.95, 22.77]

/-- Derived column borough_data.resolution_rate (line 96). -/
def borough_resolution_rate : List ℚ :=
  List.zipWith rateround borough_closed borough_count

/-- Column borough_complaint.borough (line 100): the sparse cross-tab. -/
def borough_complaint_borough : List String :=
  ["Bronx", "Bronx", "Brooklyn", "Brooklyn", "Manhattan", "Queens", "Queens"]

/-- Column borough_complaint.complaint (lines 101-102). -/
def borough_complaint_complaint : List String :=
  ["Noise-Residential", "Heat/Hot Water", "Illegal Parking", "Heat/Hot Water",
   "Heat/Hot Water", "Illegal Parking", "Heat/Hot Water"]

/-- Column borough_complaint.count (line 103). -/
def borough_complaint_count : List ℤ :=
  [37472, 22787, 17623, 16866, 15586, 13828, 8141]

/-- Column channel_data.channel (line 108). -/
def channel_channel : List String := ["Online", "Mobile", "Phone", "Unknown"]

/-- Column channel_data.count (line 109). -/
def channel_count : List ℤ := [152801, 88719, 69946, 20636]

/-- Derived column channel_data.pct (lines 292-293, added during page
assembly): count / total * 100 where total is the sum of the count column.
The script stores the exact quotient; rounding happens only in display
format strings. -/
def channel_pct : List ℚ :=
  channel_count.map (fun k => Rat.divInt (k * 100) channel_count.sum)

/-- Column Count of the borough_top table (line 523), built during page
assembly for the Top Complaint by Borough chart. -/
def borough_top_count : List ℤ := [37472, 17623, 15586, 13828, 1331]

/-- Counts of the hardcoded Status Breakdown markdown table
(lines 326-329): Closed, Open, In Progress, Other. -/
def status_counts : List ℤ := [301350, 19468, 9308, 1976]

/-- The published grand total: the caption on line 193 and the Total
Requests metric on line 203 both display 332,102. -/
def grand_total : ℤ := 332102

-- ===========================================================================
-- The six DataFrames as record types, for the mutation claim: each record
-- holds the columns present after the data section (lines 54-110); columns
-- that the page-assembly code adds later are Option fields, none at
-- construction time.
-- ===========================================================================

/-- The daily_data DataFrame.  Columns date, count, day_of_week and week are
built in the data section (lines 54-61); day_num and weekday are added only
at lines 444-445 during page assembly. -/
structure DailyTable where
  date : List ℕ
  count : List ℤ
  day_of_week : List String
  week : List ℕ
  day_num : Option (List ℕ)
  weekday : Option (List ℕ)
deriving DecidableEq

/-- The complaint_data DataFrame (lines 64-76).  The Python column named
open is the field openCount (open is a Lean keyword). -/
structure ComplaintTable where
  complaint_type : List String
  count : List ℤ
  closed : List ℤ
  resolution_rate : List ℚ
  openCount : List ℤ
deriving DecidableEq

/-- The agency_data DataFrame (lines 79-87). -/
structure AgencyTable where
  agency : List String
  name : List String
  count : List ℤ
  closed : List ℤ
  median_hours : List ℚ
  resolution_rate : List ℚ
deriving DecidableEq

/-- The borough_data DataFrame (lines 90-96). -/
structure BoroughTable where
  borough : List String
  count : List ℤ
  closed : List ℤ
  median_hours : List ℚ
  resolution_rate : List ℚ
deriving DecidableEq

/-- The borough_complaint cross-tab DataFrame (lines 99-104). -/
structure CrosstabTable where
  borough : List String
  complaint : List String
  count : List ℤ
deriving DecidableEq

/-- The channel_data DataFrame.  Columns channel and count are built at
lines 107-110; the pct column is added only at line 293 during page
assembly. -/
structure ChannelTable where
  channel : List String
  count : List ℤ
  pct : Option (List ℚ)
deriving DecidableEq

/-- All six data tables of the script, bundled. -/
structure Tables where
  daily : DailyTable
  complaint : ComplaintTable
  agency : AgencyTable
  borough : BoroughTable
  crosstab : CrosstabTable
  channel : ChannelTable
deriving DecidableEq

/-- The tables exactly as the data section (lines 54-110) constructs them,
derived columns included. -/
def initialTables : Tables :=
  { daily :=
      { date := daily_date
        count := daily_count
        day_of_week := daily_date.map dayNameDec2025
        week := daily_date.map isoWeekDec2025
        day_num := none
        weekday := none }
    complaint :=
      { complaint_type := complaint_type
        count := complaint_count
        closed := complaint_closed
        resolution_rate := complaint_resolution_rate
        openCount := complaint_open_col }
    agency :=
      { agency := agency_agency
        name := agency_name
        count := agency_count
        closed := agency_closed
        median_hours := agency_median_hours
        resolution_rate := agency_resolution_rate }
    borough :=
      { borough := borough_borough
        count := borough_count
        closed := borough_closed
        median_hours := borough_median_hours
        resolution_rate := borough_resolution_rate }
    crosstab :=
      { borough := borough_complaint_borough
        complaint := borough_complaint_complaint
        count := borough_complaint_count }
    channel :=
      { channel := channel_channel
        count := channel_count
        pct := none } }

/-- Line 293 of the script: channel_data adds a pct column equal to
count / total * 100 with total the sum of the count column (line 292). -/
def addChannelPct (c : ChannelTable) : ChannelTable :=
  { c with pct := some (c.count.map (fun k => Rat.divInt (k * 100) c.count.sum)) }

/-- Lines 444-445 of the script: daily_data adds a day_num column
(dt.day, the day of the month) and a weekday column (dt.dayofweek,
Monday = 0; December 2025 starts on a Monday). -/
def addDailyCols (d : DailyTable) : DailyTable :=
  { d with
      day_num := some d.date
      weekday := some (d.date.map (fun x => (x - 1) % 7)) }

/-- Every change that the page-assembly code (lines 188-575) makes to any of
the six data tables: line 293 adds channel_data.pct, lines 444-445 add
daily_data.day_num and daily_data.weekday.  Every other access is read-only
(sort_values, head, groupby and iterrows all return fresh objects). -/
def assembleTables (t : Tables) : Tables :=
  { t with
      channel := addChannelPct t.channel
      daily := addDailyCols t.daily }

-- ===========================================================================
-- Figure helpers: tufte_layout (lines 126-153) and create_sparkline
-- (lines 155-186)
-- ===========================================================================

/-- The plotly layout fields that tufte_layout sets (update_layout call at
lines 128-137).  The title field holds the title text when a title dict is
attached and none when title is set to None. -/
structure FigLayout where
  title : Option String
  paper_bgcolor : String
  plot_bgcolor : String
  margin_t : ℕ
  height : ℕ
  showlegend : Bool
deriving DecidableEq

/-- Python truthiness of the optional title string argument: None and the
empty string are falsy, any other string is truthy. -/
def titleTruthy : Option String → Bool
  | none => false
  | some s => s != ""

/-- The tufte_layout function (lines 126-137): the update_layout call sets
title to a dict holding the given text when the title argument is truthy
and to None otherwise, white paper and plot backgrounds, a top margin of 40
when the title argument is truthy and 20 otherwise, the given height, and
showlegend False.  The axis styling (lines 139-152) is not modelled. -/
def tufte_layout (_fig : FigLayout) (title : Option String) (height : ℕ) :
    FigLayout :=
  { title := if titleTruthy title then title else none
    paper_bgcolor := "white"
    plot_bgcolor := "white"
    margin_t := if titleTruthy title then 40 else 20
    height := height
    showlegend := false }

/-- Minimum of two rationals, written with an explicit comparison so that
it evaluates by kernel reduction. -/
def qmin (a b : ℚ) : ℚ := if b < a then b else a

/-- Maximum of two rationals, written with an explicit comparison. -/
def qmax (a b : ℚ) : ℚ := if a < b then b else a

/-- First index of the minimum of a list, numpy argmin: a strictly smaller
element is needed to displace the current best, so the first minimum wins. -/
def argminAux : List ℚ → ℕ → ℕ → ℚ → ℕ
  | [], _, bi, _ => bi
  | x :: xs, i, bi, bv =>
      if x < bv then argminAux xs (i + 1) i x else argminAux xs (i + 1) bi bv

/-- First index of the maximum of a list, numpy argmax. -/
def argmaxAux : List ℚ → ℕ → ℕ → ℚ → ℕ
  | [], _, bi, _ => bi
  | x :: xs, i, bi, bv =>
      if bv < x then argmaxAux xs (i + 1) i x else argmaxAux xs (i + 1) bi bv

/-- Index of the first minimum of a list; none on the empty list, where
numpy argmin raises instead. -/
def argminL : List ℚ → Option ℕ
  | [] => none
  | x :: xs => some (argminAux xs 1 0 x)

/-- Index of the first maximum of a list; none on the empty list. -/
def argmaxL : List ℚ → Option ℕ
  | [] => none
  | x :: xs => some (argmaxAux xs 1 0 x)

/-- Minimum value of a list; none on the empty list. -/
def listMin? : List ℚ → Option ℚ
  | [] => none
  | x :: xs => some (xs.foldl qmin x)

/-- Maximum value of a list; none on the empty list. -/
def listMax? : List ℚ → Option ℚ
  | [] => none
  | x :: xs => some (xs.foldl qmax x)

/-- The two traces and the layout fields of the figure that create_sparkline
builds: the line trace over the full series (lines 158-164) and the
min/max marker trace (lines 167-176) whose x holds the argmin and argmax
indices, whose y holds the minimum and maximum values, and whose text
holds those two values rounded to zero decimals (the format string
applies comma grouping, which we do not model as a string). -/
structure Sparkline where
  lineY : List ℚ
  lineColor : String
  markerX : List ℕ
  markerY : List ℚ
  markerText : List ℤ
  showlegend : Bool
  height : ℕ
deriving DecidableEq

/-- The create_sparkline function (lines 155-186).  Line 166 calls
values.argmin() and values.argmax(), which raise on an empty array, so the
result is none exactly for the empty input; on any other input the figure
described above is returned. -/
def create_sparkline (values : List ℚ) (height : ℕ) (color : String) :
    Option Sparkline :=
  match values with
  | [] => none
  | v :: vs =>
      some
        { lineY := v :: vs
          lineColor := color
          markerX := [argminAux vs 1 0 v, argmaxAux vs 1 0 v]
          markerY := [vs.foldl qmin v, vs.foldl qmax v]
          markerText := [roundHalfEven (vs.foldl qmin v),
                         roundHalfEven (vs.foldl qmax v)]
          showlegend := false
          height := height }

/-- The charts the page renders through st.plotly_chart, in page order, each
with whether tufte_layout is applied to it.  Call sites: the daily sparkline
(line 224) and fig_channel (line 320) configure their layouts inline and
never pass through tufte_layout; fig_complaints (line 286), fig_agency
(line 392), fig_borough (line 418), fig_heatmap (line 476), fig_dow
(line 504) and fig_boro_top (line 541) do pass through it. -/
def pageCharts : List (String × Bool) :=
  [("daily_sparkline", false), ("fig_complaints", true),
   ("fig_channel", false), ("fig_agency", true), ("fig_borough", true),
   ("fig_heatmap", true), ("fig_dow", true), ("fig_boro_top", true)]

-- ===========================================================================
-- Metric callouts hardcoded in the page (lines 202-220)
-- ===========================================================================

/-- The Peak Day metric (line 215) names December 15. -/
def metric_peak_day : ℕ := 15

/-- The Peak Day caption (line 216) shows 16,388 requests. -/
def metric_peak_count : ℤ := 16388

/-- The Low Day metric (line 219) names December 25. -/
def metric_low_day : ℕ := 25

/-- The Low Day caption (line 220) shows 6,216 requests. -/
def metric_low_count : ℤ := 6216

/-- The Total Requests caption (line 204) shows a 10,713 daily average. -/
def metric_daily_avg : ℤ := 10713

/-- The daily count series as the rational sequence passed to
create_sparkline on line 225. -/
def daily_count_q : List ℚ := daily_count.map (fun z => (z : ℚ))

/-- What a successful create_sparkline call delivers: a figure whose line
trace is the input series and whose marker trace sits at the first indices
of the minimum and the maximum, at those two values, annotated with those
two values rounded to zero decimals. -/
def sparkSpec (values : List ℚ) (height : ℕ) (color : String) : Prop :=
  ∃ fig, create_sparkline values height color = some fig ∧
    listMin? values = some (fig.markerY.getD 0 0) ∧
    listMax? values = some (fig.markerY.getD 1 0) ∧
    argminL values = some (fig.markerX.getD 0 0) ∧
    argmaxL values = some (fig.markerX.getD 1 0) ∧
    fig.markerText = fig.markerY.map roundHalfEven ∧
    fig.lineY = values

/-- The claim that no data table is mutated after the data section: page
assembly leaves every table exactly as constructed. -/
def c3_claim : Prop := assembleTables initialTables = initialTables

/-- The claim that the shared styling function is applied to every chart on
the page, and that on any figure it suppresses the legend, sets white
backgrounds, and renders a title exactly when a title argument is given. -/
def c8_claim : Prop :=
  (∀ p ∈ pageCharts, p.2 = true) ∧
  ∀ (l : FigLayout) (t : Option String) (n : ℕ),
    (tufte_layout l t n).showlegend = false ∧
    (tufte_layout l t n).paper_bgcolor = "white" ∧
    (tufte_layout l t n).plot_bgcolor = "white" ∧
    ((tufte_layout l t n).title ≠ none ↔ t ≠ none)

-- ===========================================================================
-- Theorems
-- ===========================================================================

/-- Rat.divInt of k * 100 by T is the same rational as k / T * 100 computed
in ℚ, identifying the computable percentage entries with the formula as
the script writes it. -/
theorem pct_entry_eq (k T : ℤ) :
    Rat.divInt (k * 100) T = (k : ℚ) / (T : ℚ) * 100 := by
  rw [Rat.divInt_eq_div]
  push_cast
  ring

/-- Scaling the numerator by ten is multiplication by ten. -/
theorem mulTen_eq (q : ℚ) : Rat.divInt (q.num * 10) (q.den : ℤ) = q * 10 := by
  rw [Rat.divInt_eq_div]
  push_cast
  rw [mul_comm (q.num : ℚ) 10, mul_div_assoc, Rat.num_div_den]
  ring

/-- The computable roundTo1 is the textbook one-decimal rounding: round
half to even after scaling by ten, then divide by ten. -/
theorem roundTo1_eq (q : ℚ) :
    roundTo1 q = (roundHalfEven (q * 10) : ℚ) / 10 := by
  unfold roundTo1
  rw [mulTen_eq, Rat.divInt_eq_div]
  norm_num

/-- The computable rateround is round(closed / count * 100, 1) exactly as
the script writes it. -/
theorem rate_entry_eq (cl ct : ℤ) :
    rateround cl ct = roundTo1 ((cl : ℚ) / (ct : ℚ) * 100) := by
  unfold rateround
  rw [pct_entry_eq]

/-- C1, counterexample: the borough count column does not sum to the same
value as the agency count column, and the agency sum is not the published
grand total, so the claimed three-way equality fails. -/
theorem c1_counterexample :
    ¬ (borough_count.sum = agency_count.sum ∧ agency_count.sum = grand_total) := by
  decide

/-- C1, amended: the five borough counts sum to 331,868 and the ten agency
counts sum to 328,665; the two sums differ from each other and both fall
short of the published grand total 332,102. -/
theorem c1_amended_totals :
    borough_count.length = 5 ∧ agency_count.length = 10 ∧
    borough_count.sum = 331868 ∧ agency_count.sum = 328665 ∧
    grand_total = 332102 ∧
    borough_count.sum ≠ grand_total ∧ agency_count.sum ≠ grand_total ∧
    borough_count.sum ≠ agency_count.sum := by
  decide

/-- C2, counterexample: create_sparkline is not total, because on the empty
sequence numpy argmin and argmax raise, so no figure is produced. -/
theorem c2_counterexample :
    ¬ ∀ (values : List ℚ) (n : ℕ) (c : String), sparkSpec values n c := by
  intro hcl
  obtain ⟨fig, hfig, -⟩ := hcl [] 40 ""
  simp [create_sparkline] at hfig

/-- C2, amended: on every non-empty numeric sequence create_sparkline
returns a figure whose second trace marks the minimum and maximum elements
of the sequence, at their first indices, annotated with their values. -/
theorem c2_amended_nonempty_total :
    ∀ (values : List ℚ) (n : ℕ) (c : String),
      values ≠ [] → sparkSpec values n c := by
  intro values n c h
  match values with
  | [] => exact absurd rfl h
  | v :: vs => exact ⟨_, rfl, rfl, rfl, rfl, rfl, rfl, rfl⟩

/-- C2, witness: the amended theorem applied to the concrete sequence
3, 1, 2 at the default height and colour. -/
theorem c2_amended_witness :
    ((3 : ℚ) :: (1 : ℚ) :: (2 : ℚ) :: []) ≠ [] ∧
    sparkSpec ((3 : ℚ) :: (1 : ℚ) :: (2 : ℚ) :: []) 40 "#2c3e50" :=
  ⟨by simp, c2_amended_nonempty_total _ 40 "#2c3e50" (by simp)⟩

/-- C3, counterexample: page assembly does not leave the tables unchanged;
it adds the pct column to the channel table and the day_num and weekday
columns to the daily table. -/
theorem c3_counterexample : ¬ c3_claim := by
  intro h
  have hd := congrArg (fun t => t.daily.day_num) h
  simp [assembleTables, addDailyCols, initialTables] at hd

/-- C3, amended: the only post-construction changes are the pct column
added to the channel table (line 293) and the day_num and weekday columns
added to the daily table (lines 444-445); the complaint, agency, borough
and cross-tab tables are untouched, and no existing column or row of any
table is changed. -/
theorem c3_amended_mutations :
    (assembleTables initialTables).complaint = initialTables.complaint ∧
    (assembleTables initialTables).agency = initialTables.agency ∧
    (assembleTables initialTables).borough = initialTables.borough ∧
    (assembleTables initialTables).crosstab = initialTables.crosstab ∧
    (assembleTables initialTables).channel.channel
      = initialTables.channel.channel ∧
    (assembleTables initialTables).channel.count
      = initialTables.channel.count ∧
    initialTables.channel.pct = none ∧
    (assembleTables initialTables).channel.pct = some channel_pct ∧
    (assembleTables initialTables).daily.date = initialTables.daily.date ∧
    (assembleTables initialTables).daily.count = initialTables.daily.count ∧
    (assembleTables initialTables).daily.day_of_week
      = initialTables.daily.day_of_week ∧
    (assembleTables initialTables).daily.week = initialTables.daily.week ∧
    initialTables.daily.day_num = none ∧
    initialTables.daily.weekday = none ∧
    (assembleTables initialTables).daily.day_num = some daily_date ∧
    (assembleTables initialTables).daily.weekday
      = some (daily_date.map (fun d => (d - 1) % 7)) :=
  ⟨rfl, rfl, rfl, rfl, rfl, rfl, rfl, rfl, rfl, rfl, rfl, rfl, rfl, rfl,
   rfl, rfl⟩

/-- C4: in each of the three tables carrying a resolution_rate column, the
rate in every row equals round(closed / count * 100, 1) recomputed from
that row of the base columns. -/
theorem c4_resolution_rate_formula :
    (∀ i : Fin 15, complaint_resolution_rate.getD (i : ℕ) 0
      = roundTo1 ((complaint_closed.getD (i : ℕ) 0 : ℚ)
          / (complaint_count.getD (i : ℕ) 0 : ℚ) * 100)) ∧
    (∀ i : Fin 10, agency_resolution_rate.getD (i : ℕ) 0
      = roundTo1 ((agency_closed.getD (i : ℕ) 0 : ℚ)
          / (agency_count.getD (i : ℕ) 0 : ℚ) * 100)) ∧
    (∀ i : Fin 5, borough_resolution_rate.getD (i : ℕ) 0
      = roundTo1 ((borough_closed.getD (i : ℕ) 0 : ℚ)
          / (borough_count.getD (i : ℕ) 0 : ℚ) * 100)) := by
  refine ⟨?_, ?_, ?_⟩ <;>
    · intro i
      rw [← rate_entry_eq]
      fin_cases i <;> rfl

/-- C5: in every row of every embedded table the counts are non-negative
integers, closed never exceeds count, and every derived resolution rate
lies between 0 and 100 inclusive. -/
theorem c5_invariants :
    (∀ i : Fin 15, 0 ≤ complaint_count.getD (i : ℕ) 0 ∧
      0 ≤ complaint_closed.getD (i : ℕ) 0 ∧
      complaint_closed.getD (i : ℕ) 0 ≤ complaint_count.getD (i : ℕ) 0 ∧
      0 ≤ complaint_resolution_rate.getD (i : ℕ) 0 ∧
      complaint_resolution_rate.getD (i : ℕ) 0 ≤ 100) ∧
    (∀ i : Fin 10, 0 ≤ agency_count.getD (i : ℕ) 0 ∧
      0 ≤ agency_closed.getD (i : ℕ) 0 ∧
      agency_closed.getD (i : ℕ) 0 ≤ agency_count.getD (i : ℕ) 0 ∧
      0 ≤ agency_resolution_rate.getD (i : ℕ) 0 ∧
      agency_resolution_rate.getD (i : ℕ) 0 ≤ 100) ∧
    (∀ i : Fin 5, 0 ≤ borough_count.getD (i : ℕ) 0 ∧
      0 ≤ borough_closed.getD (i : ℕ) 0 ∧
      borough_closed.getD (i : ℕ) 0 ≤ borough_count.getD (i : ℕ) 0 ∧
      0 ≤ borough_resolution_rate.getD (i : ℕ) 0 ∧
      borough_resolution_rate.getD (i : ℕ) 0 ≤ 100) ∧
    (∀ i : Fin 31, 0 ≤ daily_count.getD (i : ℕ) 0) ∧
    (∀ i : Fin 4, 0 ≤ channel_count.getD (i : ℕ) 0) ∧
    (∀ i : Fin 7, 0 ≤ borough_complaint_count.getD (i : ℕ) 0) ∧
    (∀ i : Fin 5, 0 ≤ borough_top_count.getD (i : ℕ) 0) ∧
    (∀ i : Fin 4, 0 ≤ status_counts.getD (i : ℕ) 0) := by
  decide

/-- C6: in every row of the complaint-type table the derived open column
plus the closed column equals the count column. -/
theorem c6_open_plus_closed :
    complaint_open_col.length = 15 ∧
    ∀ i : Fin 15, complaint_closed.getD (i : ℕ) 0
      + complaint_open_col.getD (i : ℕ) 0 = complaint_count.getD (i : ℕ) 0 := by
  decide

/-- C7: the four derived channel percentage shares sum to exactly 100; the
script keeps the exact quotients, so the sum is exact, not merely within
rounding tolerance. -/
theorem c7_channel_pct_sum :
    channel_pct.length = 4 ∧ channel_pct.sum = 100 := by
  constructor
  · decide
  · show channel_pct.sum = 100
    norm_num [channel_pct, channel_count, pct_entry_eq, List.sum_cons,
      List.sum_nil]

/-- C8, counterexample: the shared styling function is not applied to every
chart on the page; fig_channel is rendered with an inline layout and never
passes through tufte_layout.  Moreover, a given but empty title argument is
falsy in Python, so it renders no title. -/
theorem c8_counterexample :
    ¬ c8_claim ∧
    (tufte_layout ⟨none, "", "", 0, 0, true⟩ (some "") 300).title = none := by
  constructor
  · intro h
    have h1 := h.1 ("fig_channel", false) (by simp [pageCharts])
    simp at h1
  · rfl

/-- C8, amended: tufte_layout is applied to every chart on the page except
the daily sparkline and the channel bar, which configure their layouts
inline; each figure it is applied to gets showlegend false, white paper
and plot backgrounds, and a title exactly when a truthy (non-empty) title
argument is given. -/
theorem c8_amended_styling :
    (pageCharts.filter (fun p => !p.2)).map Prod.fst
      = ["daily_sparkline", "fig_channel"] ∧
    ∀ (l : FigLayout) (t : Option String) (n : ℕ),
      (tufte_layout l t n).showlegend = false ∧
      (tufte_layout l t n).paper_bgcolor = "white" ∧
      (tufte_layout l t n).plot_bgcolor = "white" ∧
      ((tufte_layout l t n).title ≠ none ↔ titleTruthy t = true) ∧
      (titleTruthy t = true → (tufte_layout l t n).title = t) := by
  refine ⟨by decide, ?_⟩
  intro l t n
  refine ⟨rfl, rfl, rfl, ?_, ?_⟩
  · cases t with
    | none => simp [tufte_layout, titleTruthy]
    | some s =>
        by_cases hs : s = "" <;> simp [tufte_layout, titleTruthy, hs]
  · intro ht
    simp [tufte_layout, ht]

/-- C8, witness: the amended theorem applied at the concrete layout call of
line 392, which passes the title Agency Performance at height 350; the
truthy-title hypothesis is discharged and the title is rendered. -/
theorem c8_amended_witness :
    titleTruthy (some "Agency Performance") = true ∧
    (tufte_layout ⟨none, "", "", 0, 0, true⟩
        (some "Agency Performance") 350).title = some "Agency Performance" :=
  ⟨by decide,
   (c8_amended_styling.2 ⟨none, "", "", 0, 0, true⟩
       (some "Agency Performance") 350).2.2.2.2 (by decide)⟩

/-- C9: the three independent embedded breakdowns each sum to the published
grand total: the 31 daily counts, the four channel counts, and the four
status-breakdown counts all sum to 332,102. -/
theorem c9_three_breakdowns_sum :
    daily_count.length = 31 ∧ daily_count.sum = grand_total ∧
    channel_count.length = 4 ∧ channel_count.sum = grand_total ∧
    status_counts.sum = 301350 + 19468 + 9308 + 1976 ∧
    status_counts.sum = grand_total ∧ grand_total = 332102 := by
  decide

/-- C10: the hardcoded key-metric callouts agree with the daily table: the
maximum daily count is 16,388, attained first and only on December 15; the
minimum is 6,216, attained on December 25; and the mean daily count rounds
to the displayed 10,713. -/
theorem c10_metric_callouts :
    listMax? daily_count_q = some (metric_peak_count : ℚ) ∧
    (argmaxL daily_count_q).map (fun i => daily_date.getD i 0)
      = some metric_peak_day ∧
    listMin? daily_count_q = some (metric_low_count : ℚ) ∧
    (argminL daily_count_q).map (fun i => daily_date.getD i 0)
      = some metric_low_day ∧
    roundHalfEven ((daily_count.sum : ℚ) / ((daily_count.length : ℤ) : ℚ))
      = metric_daily_avg := by
  refine ⟨by decide, by decide, by decide, by decide, ?_⟩
  rw [← Rat.divInt_eq_div]
  decide
